import Mathlib

/-!
Shallow embedding of the jobs-api ingestion pipeline (src/server.js).

The file embeds, from the source, the pure transforms of the pipeline
(keyword filter, URL validator, slug generator, salary normalizer) and the
effectful helpers as explicit functions of their inputs: every external
call (search API, company-enrichment API, completion API) is passed in as
an `Except Unit JSValue` argument (`.error` = transport/HTTP failure,
`.ok` = the parsed response body), every credential as a `String` that is
falsy exactly when empty (the source trims the env var and checks
truthiness), and every `Math.random()` draw as an explicit string
argument.  JavaScript values that the source treats dynamically (the
salary fields, API response bodies) are modelled by the inductive
`JSValue`; fields the source only ever reads as strings are modelled as
`Option String` with JavaScript truthiness (absent or empty = falsy).

Platform pieces that are not code of the repository are modelled to their
standard behaviour, restricted to what the pipeline uses: the WHATWG URL
parser behind `new URL` (scheme and host extraction), `encodeURIComponent`,
`String.prototype.toLowerCase`/`toUpperCase`/`trim` on ASCII text, and
`JSON.stringify` (which raises on a circular structure; a circular object
is modelled by the `obj true` marker).  The decimal rendering of
non-integral numbers is not modelled exactly (no claim depends on it);
integer rendering is exact.
-/

/-- One character of ASCII lowercasing, as `String.prototype.toLowerCase`
acts on ASCII text. -/
def lowerChar (c : Char) : Char :=
  if 'A' ≤ c && c ≤ 'Z' then Char.ofNat (c.toNat + 32) else c

/-- One character of ASCII uppercasing, as `String.prototype.toUpperCase`
acts on ASCII text. -/
def upperChar (c : Char) : Char :=
  if 'a' ≤ c && c ≤ 'z' then Char.ofNat (c.toNat - 32) else c

/-- `s.toLowerCase()` on ASCII text. -/
def jsToLower (s : String) : String := String.mk (s.data.map lowerChar)

/-- `s.toUpperCase()` on ASCII text. -/
def jsToUpper (s : String) : String := String.mk (s.data.map upperChar)

/-- The whitespace characters `String.prototype.trim` strips (the common
ASCII ones). -/
def wsChar (c : Char) : Bool := c = ' ' || c = '\t' || c = '\n' || c = '\r'

/-- `s.trim()`. -/
def jsTrim (s : String) : String :=
  String.mk (((s.data.dropWhile wsChar).reverse.dropWhile wsChar).reverse)

/-- `needle` occurs as a contiguous run inside `hay`
(`String.prototype.includes`). -/
def isSubstr (needle hay : List Char) : Bool :=
  match hay with
  | [] => needle.isEmpty
  | _ :: t => List.isPrefixOf needle hay || isSubstr needle t

/-- `s.includes(sub)`. -/
def strIncludes (s sub : String) : Bool := isSubstr sub.data s.data

/-- `s.substring(0, n)`. -/
def strTake (s : String) (n : Nat) : String := String.mk (s.data.take n)

/-- `s.slice(-n)`: the last `n` characters (the whole string when shorter). -/
def lastN (s : String) (n : Nat) : String :=
  String.mk (s.data.drop (s.data.length - n))

/-- JavaScript truthiness of a string-or-absent field: absent and `""` are
falsy. -/
def strTruthy : Option String → Bool
  | none => false
  | some s => !(s = "")

/-- `a || b` on string-or-absent values. -/
def orElseJS (a b : Option String) : Option String :=
  if strTruthy a then a else b

/-- `a || null` on a string-or-absent value. -/
def truthyOrNone (a : Option String) : Option String :=
  if strTruthy a then a else none

/-- A `${...}` template interpolation: JavaScript renders `null` as the text
`"null"`. -/
def tmpl (o : Option String) : String := o.getD "null"

/-- Decimal digit for one value below ten. -/
def digitOfNat (n : Nat) : Char := Char.ofNat ('0'.toNat + n)

/-- Decimal digits of a natural number (fuel-driven so that it is structural
and evaluates in the kernel; the fuel `n + 1` always suffices). -/
def natDigitsAux : Nat → Nat → List Char
  | 0, _ => []
  | fuel + 1, n =>
    if n < 10 then [digitOfNat n]
    else natDigitsAux fuel (n / 10) ++ [digitOfNat (n % 10)]

/-- Decimal rendering of a natural number. -/
def natRepr (n : Nat) : String := String.mk (natDigitsAux (n + 1) n)

/-- Decimal rendering of an integer. -/
def intRepr (i : Int) : String :=
  if i < 0 then "-" ++ natRepr i.natAbs else natRepr i.natAbs

/-- Rendering of a number.  Exact for integers; a non-integral rational is
shown as `num/den`, standing in for the JavaScript decimal rendering, which
no claim depends on. -/
def ratRepr (q : Rat) : String :=
  if q.den = 1 then intRepr q.num else intRepr q.num ++ "/" ++ natRepr q.den

/-- A JavaScript value as the pipeline's dynamic fields hold one.  `obj
cyclic fields` is a plain object; `cyclic = true` marks an object through
which a reference cycle is reachable, so that `JSON.stringify` on it
raises.  `undefined` and `null` are collapsed into `jsNull` (the source
only ever distinguishes them together, through `??` and truthiness).
Numbers are finite (`NaN`/`Infinity` never arise in the claims). -/
inductive JSValue : Type where
  | jsNull : JSValue
  | num : Rat → JSValue
  | str : String → JSValue
  | boolVal : Bool → JSValue
  | obj : Bool → List (String × JSValue) → JSValue
  | arr : List JSValue → JSValue

/-- JavaScript truthiness. -/
def jsTruthy : JSValue → Bool
  | .jsNull => false
  | .num q => !(q = 0)
  | .str s => !(s = "")
  | .boolVal b => b
  | .obj _ _ => true
  | .arr _ => true

/-- `a ?? b`. -/
def jsCoalesce (a b : JSValue) : JSValue :=
  match a with
  | .jsNull => b
  | v => v

/-- First non-null value of a `?? ... ??` chain. -/
def jsChain : List JSValue → JSValue
  | [] => .jsNull
  | v :: t =>
    match v with
    | .jsNull => jsChain t
    | w => w

/-- Property access `v[k]` (absent property or non-object receiver reads as
`undefined`, collapsed into `jsNull`). -/
def lookupJS : JSValue → String → JSValue
  | .obj _ fields, key => lookupAssoc fields key
  | _, _ => .jsNull
where
  lookupAssoc : List (String × JSValue) → String → JSValue
    | [], _ => .jsNull
    | (k, v) :: t, key => if k = key then v else lookupAssoc t key

/-- Index access `v[i]` on an array (`jsNull` otherwise). -/
def jsIndex (v : JSValue) (i : Nat) : JSValue :=
  match v with
  | .arr xs => (xs.get? i).getD .jsNull
  | _ => .jsNull

mutual

/-- `String(v)` for the values the pipeline can reach: `null` renders as
`"null"`, booleans as `"true"`/`"false"`, plain objects as
`"[object Object]"`, arrays join their elements with `","` (a `null`
element renders empty). -/
def jsToString : JSValue → String
  | .jsNull => "null"
  | .num q => ratRepr q
  | .str s => s
  | .boolVal b => if b then "true" else "false"
  | .obj _ _ => "[object Object]"
  | .arr xs => jsJoinComma xs

/-- Array elements joined with `","` for `String(array)`. -/
def jsJoinComma : List JSValue → String
  | [] => ""
  | [x] =>
    match x with
    | .jsNull => ""
    | v => jsToString v
  | x :: y :: t =>
    (match x with
     | .jsNull => ""
     | v => jsToString v) ++ "," ++ jsJoinComma (y :: t)

end

/-- Escaping of `"` and `\` inside a JSON string literal. -/
def jsonEscape (s : String) : String :=
  String.mk (s.data.foldr
    (fun c acc => if c = '"' || c = '\\' then '\\' :: c :: acc else c :: acc) [])

mutual

/-- `JSON.stringify(v)`, `none` standing for the `TypeError` it raises on a
circular structure (the `obj true` marker). -/
def jsonStr : JSValue → Option String
  | .jsNull => some "null"
  | .num q => some (ratRepr q)
  | .str s => some ("\"" ++ jsonEscape s ++ "\"")
  | .boolVal b => some (if b then "true" else "false")
  | .obj cyclic fields =>
    if cyclic then none
    else (jsonFields fields).map (fun body => "\x7b" ++ body ++ "\x7d")
  | .arr xs => (jsonElems xs).map (fun body => "[" ++ body ++ "]")

/-- The members of a JSON object body, comma-separated. -/
def jsonFields : List (String × JSValue) → Option String
  | [] => some ""
  | [(k, v)] =>
    (jsonStr v).map (fun s => "\"" ++ jsonEscape k ++ "\":" ++ s)
  | (k, v) :: p :: t =>
    match jsonStr v, jsonFields (p :: t) with
    | some s, some rest => some ("\"" ++ jsonEscape k ++ "\":" ++ s ++ "," ++ rest)
    | _, _ => none

/-- The elements of a JSON array body, comma-separated. -/
def jsonElems : List JSValue → Option String
  | [] => some ""
  | [v] => jsonStr v
  | v :: w :: t =>
    match jsonStr v, jsonElems (w :: t) with
    | some s, some rest => some (s ++ "," ++ rest)
    | _, _ => none

end

/-- ASCII letter. -/
def isAsciiLetter (c : Char) : Bool :=
  ('a' ≤ c && c ≤ 'z') || ('A' ≤ c && c ≤ 'Z')

/-- A character allowed after the first inside a URL scheme. -/
def isSchemeChar (c : Char) : Bool :=
  isAsciiLetter c || ('0' ≤ c && c ≤ '9') || c = '+' || c = '-' || c = '.'

/-- Text before the first `:` and text after it (`none` when no `:`). -/
def splitAtColon : List Char → Option (List Char × List Char)
  | [] => none
  | c :: t =>
    if c = ':' then some ([], t)
    else (splitAtColon t).map (fun p => (c :: p.1, p.2))

/-- A character ending the authority run of a URL. -/
def authorityEnd (c : Char) : Bool := c = '/' || c = '?' || c = '#'

/-- The text after the last `@` (the whole text when there is none): userinfo
is not part of the host. -/
def afterLastAt (cs : List Char) : List Char :=
  cs.foldl (fun acc c => if c = '@' then [] else acc ++ [c]) []

/-- The schemes the URL Standard treats as special (any run of slashes may
introduce their authority, and their host must be non-empty). -/
def specialScheme (s : String) : Bool :=
  s = "http" || s = "https" || s = "ftp" || s = "ws" || s = "wss"

/-- Modelled from the URL Standard (the `new URL` constructor the source
calls), restricted to what the pipeline reads: `none` is a parse failure
(the constructor raising), otherwise the lowercased scheme and host.
A valid scheme is a letter followed by letters, digits, `+`, `-` or `.`,
up to the first `:`; for a special scheme the host (userinfo and port
stripped) must be non-empty; a non-special scheme has a host only after a
literal `//`. -/
def urlParse (u : String) : Option (String × String) :=
  match splitAtColon u.data with
  | none => none
  | some (schemeCs, rest) =>
    if schemeCs.isEmpty then none
    else if !(isAsciiLetter (schemeCs.headD ' ')) then none
    else if !(schemeCs.all isSchemeChar) then none
    else
      let scheme := String.mk (schemeCs.map lowerChar)
      if specialScheme scheme then
        let afterSlashes := rest.dropWhile (fun c => c = '/')
        let authority := afterSlashes.takeWhile (fun c => !(authorityEnd c))
        let host :=
          String.mk (((afterLastAt authority).takeWhile (fun c => !(c = ':'))).map lowerChar)
        if host = "" then none else some (scheme, host)
      else
        match rest with
        | '/' :: '/' :: r2 =>
          let authority := r2.takeWhile (fun c => !(authorityEnd c))
          let host :=
            String.mk (((afterLastAt authority).takeWhile (fun c => !(c = ':'))).map lowerChar)
          some (scheme, host)
        | _ => some (scheme, "")

/-- Hexadecimal digit (uppercase, as `encodeURIComponent` emits). -/
def hexDigit (n : Nat) : Char :=
  if n < 10 then digitOfNat n else Char.ofNat ('A'.toNat + (n - 10))

/-- A character `encodeURIComponent` leaves as-is. -/
def uriUnreserved (c : Char) : Bool :=
  isAsciiLetter c || ('0' ≤ c && c ≤ '9') || c = '-' || c = '_' || c = '.' ||
  c = '!' || c = '~' || c = '*' || c = '\'' || c = '(' || c = ')'

/-- Modelled from the ECMAScript `encodeURIComponent` for ASCII text (a
non-ASCII character would be percent-encoded per UTF-8 byte; the pipeline
only ever encodes ASCII domains). -/
def encodeURIComponent (s : String) : String :=
  String.mk (s.data.foldr
    (fun c acc =>
      if uriUnreserved c then c :: acc
      else '%' :: hexDigit (c.toNat / 16 % 16) :: hexDigit (c.toNat % 16) :: acc)
    [])

/-- `hostname.replace(/^www\./, '')` (server.js line 241). -/
def stripWww (h : String) : String :=
  if List.isPrefixOf "www.".data h.data then String.mk (h.data.drop 4) else h

/-- `extractDomain` (server.js lines 237-245): `null` for a falsy input or a
parse failure, otherwise the hostname with a leading `www.` stripped. -/
def extractDomain : Option String → Option String
  | none => none
  | some s =>
    if s = "" then none
    else
      match urlParse s with
      | none => none
      | some (_, host) => some (stripWww host)

/-- `ORG_LOGO_SIZE` (server.js line 235). -/
def ORG_LOGO_SIZE : Nat := 256

/-- `buildFaviconUrl` (server.js lines 256-259): `null` for a falsy domain,
otherwise the favicon-service URL template filled with the encoded domain
and the fixed icon size. -/
def buildFaviconUrl : Option String → Option String
  | none => none
  | some d =>
    if d = "" then none
    else
      some ("https://www.google.com/s2/favicons?domain=" ++
        encodeURIComponent d ++ "&sz=" ++ natRepr ORG_LOGO_SIZE)

/-- Lowercase ASCII letter: the only characters `generateSlug` keeps. -/
def isLowerAZ (c : Char) : Bool := 'a' ≤ c && c ≤ 'z'

/-- `.replace(/[^a-z]+/g, '-')` on lowercased text: every maximal run of
characters outside `a`-`z` becomes one `-`.  The flag records whether the
previous character was inside such a run. -/
def collapseRuns : List Char → Bool → List Char
  | [], _ => []
  | c :: t, inRun =>
    if isLowerAZ c then c :: collapseRuns t false
    else if inRun then collapseRuns t true
    else '-' :: collapseRuns t true

/-- `.replace(/^-+|-+$/g, '')`: leading and trailing dashes stripped. -/
def trimDashes (l : List Char) : List Char :=
  ((l.dropWhile (fun c => c = '-')).reverse.dropWhile (fun c => c = '-')).reverse

/-- The characters of the slug of a non-empty text. -/
def slugChars (t : String) : List Char :=
  trimDashes (collapseRuns (jsToLower t).data false)

/-- `generateSlug` (server.js lines 248-254): `null` for a falsy input,
otherwise lowercase, collapse non-letter runs to `-`, strip edge dashes. -/
def generateSlug : Option String → Option String
  | none => none
  | some t => if t = "" then none else some (String.mk (slugChars t))

/-- `CYBER_KEYWORDS` (server.js lines 226-229). -/
def CYBER_KEYWORDS : List String :=
  ["cybersecurity", "information security", "infosec", "soc", "siem", "grc", "iam",
   "appsec", "cloud security", "pentest", "security engineer", "security analyst"]

/-- `EXCLUDE_KEYWORDS` (server.js lines 231-233). -/
def EXCLUDE_KEYWORDS : List String :=
  ["physical security", "security guard", "surveillance"]

/-- A raw listing as the pipeline reads it.  Fields the source only ever
reads as strings are `Option String` (absent = `undefined`); `id` is the
string form `job.id?.toString()` would produce (absent when `job.id` is);
the salary-related fields are dynamic `JSValue`s. -/
structure Job where
  title : Option String := none
  organization : Option String := none
  url : Option String := none
  description_text : Option String := none
  organization_url : Option String := none
  organization_logo : Option String := none
  id : Option String := none
  domain_derived : Option String := none
  salary_raw : JSValue := .jsNull
  salary : JSValue := .jsNull
  compensation : JSValue := .jsNull
  salary_min : JSValue := .jsNull
  salary_min_derived : JSValue := .jsNull
  salary_range_min : JSValue := .jsNull
  salary_from : JSValue := .jsNull
  salary_max : JSValue := .jsNull
  salary_max_derived : JSValue := .jsNull
  salary_range_max : JSValue := .jsNull
  salary_to : JSValue := .jsNull
  salary_currency : JSValue := .jsNull
  currency : JSValue := .jsNull
  compensation_currency : JSValue := .jsNull
  salary_period : JSValue := .jsNull
  salary_unit : JSValue := .jsNull
  compensation_period : JSValue := .jsNull
  ai_salary_currency : JSValue := .jsNull
  ai_salary_value : JSValue := .jsNull
  ai_salary_minvalue : JSValue := .jsNull
  ai_salary_maxvalue : JSValue := .jsNull
  ai_salary_unittext : JSValue := .jsNull

/-- `${job.title || ''} ${job.description_text || ''}` lowercased
(server.js line 455). -/
def jobText (j : Job) : String :=
  jsToLower (j.title.getD "" ++ " " ++ j.description_text.getD "")

/-- `isCybersecurityJob` (server.js lines 454-464, identical first variant
at lines 32-42): reject on any exclude keyword, else accept on any include
keyword. -/
def isCybersecurityJob (j : Job) : Bool :=
  if EXCLUDE_KEYWORDS.any (fun keyword => strIncludes (jobText j) keyword) then false
  else CYBER_KEYWORDS.any (fun keyword => strIncludes (jobText j) keyword)

/-- `isValidApplyUrl` (server.js lines 467-475, identical first variant at
lines 45-53): falsy input rejected, parse failure rejected, only the
`http`/`https` schemes accepted. -/
def isValidApplyUrl (url : Option String) : Bool :=
  match url with
  | none => false
  | some u =>
    if u = "" then false
    else
      match urlParse u with
      | none => false
      | some (scheme, _) => scheme = "http" || scheme = "https"

/-- `raw` of `normalizeSalary` (server.js line 479):
`job.salary_raw ?? job.salary ?? job.compensation ?? null`. -/
def salaryRawOf (j : Job) : JSValue :=
  jsChain [j.salary_raw, j.salary, j.compensation]

/-- `rawIsObject` (line 485): truthy, `typeof === 'object'` and not an
array. -/
def rawIsObjectOf (j : Job) : Bool :=
  jsTruthy (salaryRawOf j) &&
  (match salaryRawOf j with
   | .obj _ _ => true
   | _ => false)

/-- `monetaryValue` (line 486). -/
def monetaryValueOf (j : Job) : JSValue :=
  if rawIsObjectOf j then lookupJS (salaryRawOf j) "value" else .jsNull

/-- `valueIsObject` (line 487). -/
def valueIsObjectOf (j : Job) : Bool :=
  jsTruthy (monetaryValueOf j) &&
  (match monetaryValueOf j with
   | .obj _ _ => true
   | _ => false)

/-- `min` (line 489): flat fields, then the nested `value.minValue`, then
the AI-derived minimum — first non-null wins. -/
def resolvedMin (j : Job) : JSValue :=
  jsChain [j.salary_min, j.salary_min_derived, j.salary_range_min, j.salary_from,
    (if valueIsObjectOf j then lookupJS (monetaryValueOf j) "minValue" else .jsNull),
    j.ai_salary_minvalue]

/-- `max` (line 490). -/
def resolvedMax (j : Job) : JSValue :=
  jsChain [j.salary_max, j.salary_max_derived, j.salary_range_max, j.salary_to,
    (if valueIsObjectOf j then lookupJS (monetaryValueOf j) "maxValue" else .jsNull),
    j.ai_salary_maxvalue]

/-- `value` (line 491): only the nested `value.value`. -/
def resolvedValue (j : Job) : JSValue :=
  if valueIsObjectOf j then lookupJS (monetaryValueOf j) "value" else .jsNull

/-- `currency` (line 492). -/
def resolvedCurrency (j : Job) : JSValue :=
  jsChain [j.salary_currency, j.currency, j.compensation_currency,
    (if rawIsObjectOf j then lookupJS (salaryRawOf j) "currency" else .jsNull),
    j.ai_salary_currency]

/-- `period` (line 493). -/
def resolvedPeriod (j : Job) : JSValue :=
  jsChain [j.salary_period, j.salary_unit, j.compensation_period,
    (if valueIsObjectOf j then lookupJS (monetaryValueOf j) "unitText" else .jsNull),
    j.ai_salary_unittext]

/-- `String(value).replace(/[^0-9.]/g, '')` (line 498). -/
def cleanNumeric (s : String) : List Char :=
  s.data.filter (fun c => ('0' ≤ c && c ≤ '9') || c = '.')

/-- Value of a run of decimal digits (0 for the empty run, as `Number('')`
is 0). -/
def digitsVal (cs : List Char) : Nat :=
  cs.foldl (fun acc c => acc * 10 + (c.toNat - '0'.toNat)) 0

/-- Text before the first `.` and text after it (`none` when no `.`). -/
def splitFirstDot : List Char → Option (List Char × List Char)
  | [] => none
  | c :: t =>
    if c = '.' then some ([], t)
    else (splitFirstDot t).map (fun p => (c :: p.1, p.2))

/-- `Number(cleaned)` on a digits-and-dots string: `""` is 0, more than one
dot (or a lone dot) is `NaN`, modelled as `none`. -/
def parseCleaned (cs : List Char) : Option Rat :=
  match splitFirstDot cs with
  | none => some (digitsVal cs)
  | some (a, b) =>
    if b.any (fun c => c = '.') then none
    else if a.isEmpty && b.isEmpty then none
    else some ((digitsVal a : Rat) + (digitsVal b : Rat) / ((10 : Rat) ^ b.length))

/-- `toNumber` (lines 495-501): null/undefined map to null, a finite number
is returned as-is, anything else is stringified, stripped to digits and
dots and parsed (`NaN` maps to null). -/
def toNumber : JSValue → Option Rat
  | .jsNull => none
  | .num q => some q
  | v => parseCleaned (cleanNumeric (jsToString v))

/-- `minNum` (line 503): `toNumber(min ?? value ?? aiValue)`. -/
def minNumOf (j : Job) : Option Rat :=
  toNumber (jsChain [resolvedMin j, resolvedValue j, j.ai_salary_value])

/-- `maxNum` (line 504). -/
def maxNumOf (j : Job) : Option Rat :=
  toNumber (resolvedMax j)

/-- Truthiness of a number-or-null: 0 and null are falsy. -/
def ratTruthy : Option Rat → Bool
  | none => false
  | some q => !(q = 0)

/-- `k: n || undefined` inside the object literal of line 507: the member is
present only when the number is truthy. -/
def optNumField (k : String) (o : Option Rat) : List (String × JSValue) :=
  match o with
  | none => []
  | some q => if q = 0 then [] else [(k, .num q)]

/-- `k: v || undefined`: the member is present only when the value is
truthy. -/
def optJSField (k : String) (v : JSValue) : List (String × JSValue) :=
  if jsTruthy v then [(k, v)] else []

/-- The object serialized at line 507, member order as the literal writes
it: min, max, currency, period, raw. -/
def salaryPayload (j : Job) : JSValue :=
  .obj false
    (optNumField "min" (minNumOf j) ++ optNumField "max" (maxNumOf j) ++
     optJSField "currency" (resolvedCurrency j) ++
     optJSField "period" (resolvedPeriod j) ++
     optJSField "raw" (salaryRawOf j))

/-- `normalizeSalary` (server.js lines 478-524).  `.error ()` is an
uncaught exception escaping the function: the only such site is the
`JSON.stringify` of line 507, which sits outside the `try` of lines
519-523 and raises on a circular `raw`.  The `try`/`catch` of lines
519-523 is the `jsonStr`-`none` fallback to `String(raw)` in the final
case. -/
def normalizeSalary (j : Job) : Except Unit (Option String) :=
  let raw := salaryRawOf j
  if ratTruthy (minNumOf j) || ratTruthy (maxNumOf j) ||
     jsTruthy (resolvedCurrency j) || jsTruthy (resolvedPeriod j) then
    match jsonStr (salaryPayload j) with
    | some s => .ok (some s)
    | none => .error ()
  else
    match raw with
    | .jsNull => .ok none
    | .str s => .ok (some (strTake s 255))
    | v =>
      match jsonStr v with
      | some s => .ok (some (strTake s 255))
      | none => .ok (some (strTake (jsToString v) 255))

/-- `JOB_CATEGORIES` (server.js lines 266-276). -/
def JOB_CATEGORIES : List String :=
  ["INTERNSHIPS", "DEVSECOPS", "SECURITY-ENGINEER", "INFOSEC", "ANALYST",
   "CLOUD-SECURITY", "GRC", "PENETRATION-TESTING", "SALES"]

/-- What a call to the category classifier did and returned. -/
structure GroqOutcome where
  networkCalled : Bool
  category : Option String
deriving DecidableEq

/-- `response.data?.choices?.[0]?.message?.content` (line 313). -/
def groqContent (data : JSValue) : JSValue :=
  lookupJS (lookupJS (jsIndex (lookupJS data "choices") 0) "message") "content"

/-- `.trim().toUpperCase()` applied to the completion text (line 313). -/
def normalizedCompletion (s : String) : String := jsToUpper (jsTrim s)

/-- `classifyJobCategory` (server.js lines 282-325).  `groqKey` is the
trimmed `GROQ_API_KEY` (falsy iff empty); `api` the completion call
(`.error` = any network/auth/rate-limit failure, caught at line 321).
A non-string truthy `content` makes `.trim()` raise a `TypeError`, also
caught at line 321; an absent `content` short-circuits the optional chain
and matches no category.  The response validation of lines 313-320 is
`classifyFromBody`: the normalized completion must equal or contain a
known category, the first match winning. -/
def classifyFromBody (data : JSValue) : Option String :=
  match groqContent data with
  | .str s =>
    let rawCategory := normalizedCompletion s
    JOB_CATEGORIES.find? (fun cat =>
      rawCategory = cat || strIncludes rawCategory cat)
  | .jsNull => none
  | _ => none

/-- `classifyJobCategory` (server.js lines 282-325): short-circuit with no
network call when the credential is missing, null on call failure, else
validate the completion body. -/
def classifyJobCategory (groqKey : String) (api : Except Unit JSValue) : GroqOutcome :=
  if groqKey = "" then ⟨false, none⟩
  else
    match api with
    | .error _ => ⟨true, none⟩
    | .ok data => ⟨true, classifyFromBody data⟩

/-- What the organization resolver did and returned. -/
structure OrgResolution where
  searchCalled : Bool
  organizationUrl : Option String
  organizationLogoUrl : Option String
deriving DecidableEq

/-- `fetchOrganizationUrlFromSerpApi` (server.js lines 327-348).  `serpKey`
is the trimmed `SERPAPI_KEY`; `api` the search call (`.error` = failure,
caught at line 342).  The first component records whether the search call
was issued.  `organic_results` falsy defaults to `[]`; a truthy non-array
makes `.find` raise, caught at line 342 — both give a null link.  A found
item whose `link` is a truthy non-string is not modelled (no claim reaches
it). -/
def fetchOrganizationUrlFromSerpApi (serpKey : String) (organization : Option String)
    (api : Except Unit JSValue) : Bool × Option String :=
  if serpKey = "" || !(strTruthy organization) then (false, none)
  else
    match api with
    | .error _ => (true, none)
    | .ok data =>
      match lookupJS data "organic_results" with
      | .arr organic =>
        match organic.find? (fun item => jsTruthy (lookupJS item "link")) with
        | some item =>
          (true, match lookupJS item "link" with
                 | .str s => some s
                 | _ => none)
        | none => (true, none)
      | _ => (true, none)

/-- `resolveOrganizationUrls` (server.js lines 350-370). -/
def resolveOrganizationUrls (serpKey : String) (j : Job)
    (api : Except Unit JSValue) : OrgResolution :=
  let orgUrl := truthyOrNone j.organization_url
  let orgDomain := extractDomain orgUrl
  let logoFromOrgUrl := buildFaviconUrl orgDomain
  if strTruthy orgUrl || serpKey = "" then
    ⟨false, orgUrl, orElseJS j.organization_logo logoFromOrgUrl⟩
  else
    let serp := fetchOrganizationUrlFromSerpApi serpKey
      (orElseJS j.organization (some "")) api
    let serpDomain := extractDomain serp.2
    let serpLogoUrl := buildFaviconUrl serpDomain
    ⟨serp.1, serp.2, orElseJS j.organization_logo serpLogoUrl⟩

/-- `fetchCompanyDetails` (server.js lines 372-389).  `enrichKey` is the
trimmed `COMPANY_ENRICH_API_KEY`; `api` the enrichment call (`.error` =
failure, caught at line 383).  The first component records whether the
call was issued; `response.data || null` keeps only a truthy body. -/
def fetchCompanyDetails (enrichKey : String) (companyDomain : Option String)
    (api : Except Unit JSValue) : Bool × Option JSValue :=
  if enrichKey = "" || !(strTruthy companyDomain) then (false, none)
  else
    match api with
    | .error _ => (true, none)
    | .ok data => (true, if jsTruthy data then some data else none)

/-- `companyData?.k` on a possibly-null company record. -/
def optChainLookup (d : Option JSValue) (k : String) : JSValue :=
  match d with
  | some v => lookupJS v k
  | none => .jsNull

/-- `x || null`. -/
def jsOrNull (v : JSValue) : JSValue := if jsTruthy v then v else .jsNull

/-- Join with `", "` (the `locationParts.join(', ')` of line 414). -/
def joinCommaSpace : List String → String
  | [] => ""
  | [s] => s
  | s :: t => s ++ ", " ++ joinCommaSpace t

/-- The `location` member of the company payload (lines 396-401, 414):
the truthy parts of address, city name, state name, country name joined
with `", "`, null when none. -/
def companyLocationOf (companyData : Option JSValue) : Option String :=
  let loc := optChainLookup companyData "location"
  let parts := [lookupJS loc "address",
                lookupJS (lookupJS loc "city") "name",
                lookupJS (lookupJS loc "state") "name",
                lookupJS (lookupJS loc "country") "name"].filter jsTruthy
  if parts.isEmpty then none else some (joinCommaSpace (parts.map jsToString))

/-- The row upserted into `companies` (lines 403-419); the `updated_at`
timestamp is not modelled. -/
structure CompanyPayload where
  organization_url : String
  company_name : Option String
  company_slug : Option String
  about : JSValue
  founded_year : Option String
  industries : JSValue
  socials : JSValue
  logo_url : JSValue
  location : Option String
  long_description : JSValue
  size : JSValue
  website : JSValue

/-- The payload of `upsertCompanyByOrganizationUrl` (lines 403-419).  The
`founded_year` date round-trip through `new Date` is modelled for the
four-digit integer years the enrichment API supplies. -/
def companyPayload (organizationUrl : String) (companyName companySlug : Option String)
    (companyData : Option JSValue) : CompanyPayload :=
  { organization_url := organizationUrl
    company_name := (truthyOrNone companyName).map (fun s => strTake s 100)
    company_slug := companySlug
    about := jsOrNull (optChainLookup companyData "description")
    founded_year :=
      (if jsTruthy (optChainLookup companyData "founded_year") then
        some (jsToString (optChainLookup companyData "founded_year") ++ "-01-01")
      else none)
    industries :=
      (if jsTruthy (optChainLookup companyData "industries") then
        optChainLookup companyData "industries"
      else if jsTruthy (optChainLookup companyData "industry") then
        .arr [optChainLookup companyData "industry"]
      else .jsNull)
    socials := jsOrNull (optChainLookup companyData "socials")
    logo_url := jsOrNull (optChainLookup companyData "logo_url")
    location := companyLocationOf companyData
    long_description := jsOrNull (optChainLookup companyData "seo_description")
    size := jsOrNull (optChainLookup companyData "employees")
    website := jsOrNull (optChainLookup companyData "website") }

/-- What one company-enrichment step did: whether the company-data API was
called, whether the `companies` upsert was performed, and with what row. -/
structure CompanyEnrichOutcome where
  apiCalled : Bool
  upserted : Bool
  payload : Option CompanyPayload

/-- `upsertCompanyByOrganizationUrl` (server.js lines 391-428): return
immediately on a falsy organization URL; otherwise fetch company details
(which itself skips the API call when the credential or domain is
missing) and always perform the upsert with whatever was known. -/
def upsertCompanyByOrganizationUrl (enrichKey : String) (organizationUrl : Option String)
    (companyName companyDomain companySlug : Option String)
    (api : Except Unit JSValue) : CompanyEnrichOutcome :=
  if !(strTruthy organizationUrl) then ⟨false, false, none⟩
  else
    let fetched := fetchCompanyDetails enrichKey companyDomain api
    ⟨fetched.1, true,
     some (companyPayload (organizationUrl.getD "") companyName companySlug fetched.2)⟩

/-- Membership in the per-run `processedCompanies` set. -/
def listHasStr : List String → String → Bool
  | [], _ => false
  | s :: t, k => s = k || listHasStr t k

/-- The guard of the company step inside `syncJobs` (server.js lines
611-614): the enrichment call happens only for a truthy organization URL
not yet processed in this run, and with a truthy company domain. -/
def companyStepRuns (organizationUrl : Option String) (processedCompanies : List String)
    (companyDomain : Option String) : Bool :=
  strTruthy organizationUrl &&
  !(listHasStr processedCompanies (organizationUrl.getD "")) &&
  strTruthy companyDomain

/-- The filter predicate of the first pipeline variant (server.js lines
89-99): truthy title, organization and URL, keyword filter and URL
validator all pass. -/
def keepJob (j : Job) : Bool :=
  strTruthy j.title && strTruthy j.organization && strTruthy j.url &&
  isCybersecurityJob j && isValidApplyUrl j.url

/-- `filteredJobs` of the first pipeline variant (line 89). -/
def filteredJobsV1 (jobs : List Job) : List Job := jobs.filter keepJob

/-- The result of the first variant's `/sync` route (lines 134-139). -/
structure SyncReportV1 where
  fetched : Nat
  filtered : Nat
  inserted : Nat
deriving DecidableEq

/-- The result of `syncJobs` (lines 663-667). -/
structure SyncReport where
  fetched : Nat
  filtered : Nat
  upserted : Nat
deriving DecidableEq

/-- The first variant's run counts on a successful store write (lines
104-139): `inserted` counts the rows the insert returned, one per
normalized record. -/
def syncV1Report (jobs : List Job) : SyncReportV1 :=
  ⟨jobs.length, (filteredJobsV1 jobs).length, (filteredJobsV1 jobs).length⟩

/-- `const filteredJobs = jobs` of `syncJobs` (server.js line 582): the
sync run applies no filter. -/
def filteredJobsSync (jobs : List Job) : List Job := jobs

/-- The `syncJobs` run counts on a successful store write (lines 567, 582,
650-667): `upserted` counts the rows the upsert returned, one per
normalized record (the batch's conflict keys being distinct). -/
def syncJobsReport (jobs : List Job) : SyncReport :=
  ⟨jobs.length, (filteredJobsSync jobs).length, (filteredJobsSync jobs).length⟩

/-- The identifiers `syncJobs` assembles per listing (server.js lines
596-609 and 636).  `randSlugId` stands for the
`Math.random().toString(36).substring(2, 10)` draw of line 604 and
`randExternalId` for the independent `Math.random().toString()` draw of
line 636. -/
structure JobIdents where
  companyName : Option String
  companySlug : Option String
  jobTitleSlug : Option String
  externalId : String
  idSuffix : String
  jobSlug : String
  external_job_id : String

/-- The job-slug template of lines 607-609: company slug and title slug
when both are truthy, else the title slug interpolated (JavaScript renders
a null slug as the text "null"), the id suffix always appended. -/
def jobSlugOf (companySlug jobTitleSlug : Option String) (idSuffix : String) : String :=
  if strTruthy companySlug && strTruthy jobTitleSlug then
    (companySlug.getD "") ++ "-" ++ (jobTitleSlug.getD "") ++ "-" ++ idSuffix
  else tmpl jobTitleSlug ++ "-" ++ idSuffix

/-- The per-listing identifier assembly of `syncJobs` (lines 596-609, 636). -/
def assembleJobIdents (j : Job) (randSlugId randExternalId : String) : JobIdents :=
  let companyName := truthyOrNone (j.organization.map (fun s => strTake s 100))
  let companySlug := generateSlug companyName
  let jobTitleSlug := generateSlug j.title
  let externalId := if strTruthy j.id then j.id.getD "" else randSlugId
  let idSuffix := lastN externalId 8
  { companyName := companyName
    companySlug := companySlug
    jobTitleSlug := jobTitleSlug
    externalId := externalId
    idSuffix := idSuffix
    jobSlug := jobSlugOf companySlug jobTitleSlug idSuffix
    external_job_id := if strTruthy j.id then j.id.getD "" else randExternalId }

/-- Scenario listing that fails the keyword filter (its text holds the
exclude keyword "security guard") but has a title, an organization and a
valid apply URL. -/
def cexJobA : Job :=
  { title := some "Security Guard Supervisor", organization := some "Guardia",
    url := some "https://guardia.example/jobs/1",
    description_text := some "physical security patrols", id := some "j-100" }

/-- Scenario listing that passes the keyword filter but has an invalid
apply URL. -/
def cexJobB : Job :=
  { title := some "SOC Analyst", organization := some "Acme",
    url := some "not a url", id := some "j-200" }

/-- Scenario listing that passes every filter condition. -/
def cexJobC : Job :=
  { title := some "Senior SOC Analyst", organization := some "Beta Corp",
    url := some "https://beta.example/apply", id := some "j-300" }

/-- The three-listing fetch response of the end-to-end scenario. -/
def cexBatch : List Job := [cexJobA, cexJobB, cexJobC]

/-- A listing whose raw salary is a circular object and whose flat currency
field resolves: the input on which `normalizeSalary` raises. -/
def circularSalaryJob : Job :=
  { salary_currency := .str "USD", salary_raw := .obj true [] }

/-- A listing whose raw salary is a circular object with no other salary
signal: the fallback `catch` path handles this one. -/
def circularRawOnlyJob : Job :=
  { salary_raw := .obj true [] }

/-- Flat `salary_min` and nested `value.minValue` both present. -/
def flatVsNestedJob : Job :=
  { salary_min := .num 10,
    salary_raw := .obj false [("value", .obj false [("minValue", .num 20)])] }

/-- Only AI-derived salary bounds present. -/
def aiOnlyJob : Job :=
  { ai_salary_minvalue := .num 50000, ai_salary_maxvalue := .num 70000 }

/-- No salary signal, raw salary the string "Competitive". -/
def competitiveJob : Job :=
  { salary_raw := .str "Competitive" }

/-- Same company and title as `cexJobE`, external id ending in the same
eight characters. -/
def cexJobD : Job :=
  { title := some "Security Engineer", organization := some "Acme",
    id := some "a00000001" }

/-- Same company and title as `cexJobD`, different external id with the
same last eight characters. -/
def cexJobE : Job :=
  { title := some "Security Engineer", organization := some "Acme",
    id := some "b00000001" }

/-- A listing with no external id. -/
def noIdJob : Job :=
  { title := some "Security Engineer", organization := some "Acme" }

/-- A listing whose text holds both an exclude keyword ("physical
security") and an include keyword ("infosec"). -/
def exclJob : Job :=
  { title := some "Physical Security Engineer",
    description_text := some "infosec adjacent" }

/-- A listing whose text holds an include keyword and no exclude keyword. -/
def inclJob : Job :=
  { title := some "SOC Analyst" }

/-- A listing that already carries an organization URL and no logo. -/
def orgUrlJob : Job :=
  { organization := some "Beta Corp",
    organization_url := some "https://www.beta.example/about" }

/-- A listing with neither an organization URL nor a logo. -/
def bareOrgJob : Job :=
  { organization := some "Beta Corp" }

/-- A completion body whose content is recognizable gibberish. -/
def gibberishCompletion : JSValue :=
  .obj false [("choices", .arr [.obj false
    [("message", .obj false [("content", .str "GIBBERISH")])]])]

/-- A completion body whose content names a category with trailing noise. -/
def analystCompletion : JSValue :=
  .obj false [("choices", .arr [.obj false
    [("message", .obj false [("content", .str " the category is analyst ")])]])]

theorem strAppend_cancel_left (p a b : String) (h : p ++ a = p ++ b) : a = b := by
  have hd := congrArg String.data h
  rw [String.data_append, String.data_append] at hd
  exact String.ext (List.append_cancel_left hd)

theorem jobSlugOf_suffix_inj (cs ts : Option String) (a b : String)
    (h : jobSlugOf cs ts a = jobSlugOf cs ts b) : a = b := by
  unfold jobSlugOf at h
  by_cases hb : (strTruthy cs && strTruthy ts) = true
  · rw [if_pos hb, if_pos hb] at h
    exact strAppend_cancel_left _ _ _ h
  · rw [if_neg hb, if_neg hb] at h
    exact strAppend_cancel_left _ _ _ h

theorem jobSlugOf_ends_with (cs ts : Option String) (a : String) :
    ∃ p, jobSlugOf cs ts a = p ++ a := by
  unfold jobSlugOf
  by_cases hb : (strTruthy cs && strTruthy ts) = true
  · rw [if_pos hb]; exact ⟨_, rfl⟩
  · rw [if_neg hb]; exact ⟨_, rfl⟩

/-- C1 (counterexample).  The end-to-end scenario batch — one listing
failing the keyword filter, one with an invalid apply URL, one passing
fully — run through `syncJobs`, whose filter step (line 582) is a
pass-through: the run reports fetched=3, filtered=3, upserted=3, not
fetched=3, filtered=1, upserted=1 as the claim states. -/
theorem C1_syncJobs_scenario_counterexample :
    cexBatch.length = 3 ∧
    isCybersecurityJob cexJobA = false ∧ strTruthy cexJobA.title = true ∧
    strTruthy cexJobA.organization = true ∧ isValidApplyUrl cexJobA.url = true ∧
    isCybersecurityJob cexJobB = true ∧ isValidApplyUrl cexJobB.url = false ∧
    keepJob cexJobC = true ∧
    syncJobsReport cexBatch = ⟨3, 3, 3⟩ ∧
    syncJobsReport cexBatch ≠ ⟨3, 1, 1⟩ := by
  refine ⟨rfl, by decide, by decide, by decide, by decide, by decide, by decide,
    by decide, by decide, by decide⟩

/-- C1 (amended).  The filter predicate of the first pipeline variant
(lines 89-99) keeps a listing iff it has a truthy title, organization and
URL and passes the keyword filter and the URL validator, and that
variant's run reports fetched=3, filtered=1, inserted=1 on the scenario
batch; the `syncJobs` run (the one reporting `upserted`) applies no
filter, so its filtered count always equals its fetched count. -/
theorem C1_filter_amended :
    (∀ j : Job, keepJob j = true ↔
      (strTruthy j.title = true ∧ strTruthy j.organization = true ∧
       strTruthy j.url = true ∧ isCybersecurityJob j = true ∧
       isValidApplyUrl j.url = true)) ∧
    syncV1Report cexBatch = ⟨3, 1, 1⟩ ∧
    (∀ jobs : List Job, filteredJobsSync jobs = jobs ∧
      (syncJobsReport jobs).filtered = jobs.length ∧
      (syncJobsReport jobs).fetched = jobs.length) := by
  refine ⟨fun j => ?_, by decide, fun jobs => ⟨rfl, rfl, rfl⟩⟩
  simp [keepJob, Bool.and_eq_true, and_assoc]

/-- C2 (code bug).  `normalizeSalary` is not total: with a circular raw
salary object and a resolvable flat currency, the `JSON.stringify` of
line 507 — outside the `try` of lines 519-523 — raises.  With the same
circular raw and no other salary signal, the guarded fallback path does
catch the serialization failure and returns `String(raw)` truncated,
which is what the claim (and the try/catch at lines 519-523) intends
everywhere. -/
theorem C2_normalizeSalary_raises :
    normalizeSalary circularSalaryJob = .error () ∧
    normalizeSalary circularRawOnlyJob = .ok (some "[object Object]") :=
  ⟨rfl, rfl⟩

/-- C4 (counterexample).  Two listings with the same company, the same
title and different external ids whose last eight characters agree
receive the same job slug. -/
theorem C4_shared_suffix_counterexample :
    cexJobD.id ≠ cexJobE.id ∧
    cexJobD.organization = cexJobE.organization ∧
    cexJobD.title = cexJobE.title ∧
    (assembleJobIdents cexJobD "r" "s").jobSlug =
      (assembleJobIdents cexJobE "r" "s").jobSlug := by
  refine ⟨by decide, rfl, rfl, rfl⟩

/-- C4 (amended).  Two listings with the same company and title whose
external ids differ in their last eight characters receive different job
slugs, the difference carried by the id-derived suffix. -/
theorem C4_slug_differs_when_suffix_differs (j1 j2 : Job) (r1 r2 r3 r4 s1 s2 : String)
    (h1 : j1.id = some s1) (h2 : s1 ≠ "") (h3 : j2.id = some s2) (h4 : s2 ≠ "")
    (horg : j1.organization = j2.organization) (htitle : j1.title = j2.title)
    (hsuf : lastN s1 8 ≠ lastN s2 8) :
    (assembleJobIdents j1 r1 r2).jobSlug ≠ (assembleJobIdents j2 r3 r4).jobSlug := by
  intro heq
  apply hsuf
  have e1 : (assembleJobIdents j1 r1 r2).jobSlug =
      jobSlugOf (generateSlug (truthyOrNone (j1.organization.map (fun s => strTake s 100))))
        (generateSlug j1.title) (lastN s1 8) := by
    simp [assembleJobIdents, h1, strTruthy, h2]
  have e2 : (assembleJobIdents j2 r3 r4).jobSlug =
      jobSlugOf (generateSlug (truthyOrNone (j2.organization.map (fun s => strTake s 100))))
        (generateSlug j2.title) (lastN s2 8) := by
    simp [assembleJobIdents, h3, strTruthy, h4]
  rw [e1, e2, horg, htitle] at heq
  exact jobSlugOf_suffix_inj _ _ _ _ heq

/-- C4 (witness): the amended theorem applied to two concrete listings
with suffix-distinguishing ids. -/
theorem C4_slug_differs_witness :
    (assembleJobIdents cexJobD "r" "s").jobSlug ≠
      (assembleJobIdents { cexJobE with id := some "b99999999" } "r" "s").jobSlug :=
  C4_slug_differs_when_suffix_differs cexJobD { cexJobE with id := some "b99999999" }
    "r" "s" "r" "s" "a00000001" "b99999999" rfl (by decide) rfl (by decide) rfl rfl
    (by decide)

theorem mem_collapseRuns : ∀ (l : List Char) (b : Bool) (c : Char),
    c ∈ collapseRuns l b → isLowerAZ c = true ∨ c = '-' := by
  intro l
  induction l with
  | nil => intro b c h; simp [collapseRuns] at h
  | cons d t ih =>
    intro b c h
    simp only [collapseRuns] at h
    by_cases hd : isLowerAZ d = true
    · rw [if_pos hd] at h
      rcases List.mem_cons.mp h with h1 | h2
      · exact Or.inl (h1 ▸ hd)
      · exact ih false c h2
    · rw [if_neg hd] at h
      cases b with
      | true => exact ih true c (by simpa using h)
      | false =>
        rcases List.mem_cons.mp (by simpa using h) with h1 | h2
        · exact Or.inr h1
        · exact ih true c h2

theorem mem_trimDashes (l : List Char) (c : Char) (h : c ∈ trimDashes l) : c ∈ l := by
  unfold trimDashes at h
  rw [List.mem_reverse] at h
  have h2 := (List.dropWhile_sublist _).mem h
  rw [List.mem_reverse] at h2
  exact (List.dropWhile_sublist _).mem h2

/-- C9 (confirmed).  `generateSlug` yields null for absent input (not the
empty string), maps "Acme, Inc. 2024!" to "acme-inc" and "Agent007" to
"agent" (digits collapse like any other non-letter), and every character
of any slug is a lowercase ASCII letter or a hyphen. -/
theorem C9_generateSlug_behaviour :
    generateSlug none = none ∧
    generateSlug (some "Acme, Inc. 2024!") = some "acme-inc" ∧
    generateSlug (some "Agent007") = some "agent" ∧
    (∀ (t : String) (c : Char), c ∈ slugChars t → ('a' ≤ c ∧ c ≤ 'z') ∨ c = '-') := by
  refine ⟨rfl, rfl, rfl, fun t c h => ?_⟩
  have h2 := mem_collapseRuns _ _ _ (mem_trimDashes _ _ h)
  rcases h2 with h3 | h3
  · exact Or.inl (by simpa [isLowerAZ, Bool.and_eq_true, decide_eq_true_eq] using h3)
  · exact Or.inr h3

/-- C10 (confirmed).  With a truthy external id, the stored
`external_job_id` is that id's string form and the job slug ends in its
last eight characters; with the id absent, the slug suffix comes from one
random draw and `external_job_id` from another, independent one, so the
two need not agree within a run and the upsert conflict key differs
between two runs drawing differently. -/
theorem C10_external_id_sources :
    (∀ (j : Job) (r1 r2 s : String), j.id = some s → s ≠ "" →
      (assembleJobIdents j r1 r2).external_job_id = s ∧
      (assembleJobIdents j r1 r2).idSuffix = lastN s 8 ∧
      ∃ p, (assembleJobIdents j r1 r2).jobSlug = p ++ lastN s 8) ∧
    (∀ (j : Job) (r1 r2 : String), j.id = none →
      (assembleJobIdents j r1 r2).external_job_id = r2 ∧
      (assembleJobIdents j r1 r2).idSuffix = lastN r1 8) ∧
    (assembleJobIdents noIdJob "abcdefgh" "0.12345").idSuffix ≠
      (assembleJobIdents noIdJob "abcdefgh" "0.12345").external_job_id ∧
    (assembleJobIdents noIdJob "abcdefgh" "0.12345").external_job_id ≠
      (assembleJobIdents noIdJob "ijklmnop" "0.6789").external_job_id := by
  refine ⟨fun j r1 r2 s h1 h2 => ?_, fun j r1 r2 h1 => ?_, by decide, by decide⟩
  · refine ⟨?_, ?_, ?_⟩
    · simp [assembleJobIdents, h1, strTruthy, h2]
    · simp [assembleJobIdents, h1, strTruthy, h2]
    · have e1 : (assembleJobIdents j r1 r2).jobSlug =
          jobSlugOf (generateSlug (truthyOrNone (j.organization.map (fun s => strTake s 100))))
            (generateSlug j.title) (lastN s 8) := by
        simp [assembleJobIdents, h1, strTruthy, h2]
      rw [e1]
      exact jobSlugOf_ends_with _ _ _
  · constructor
    · simp [assembleJobIdents, h1, strTruthy]
    · simp [assembleJobIdents, h1, strTruthy]

/-- C10 (witness): the general clauses applied at concrete listings. -/
theorem C10_external_id_sources_witness :
    (assembleJobIdents cexJobD "r" "s").external_job_id = "a00000001" ∧
    (assembleJobIdents noIdJob "abcdefgh" "0.12345").external_job_id = "0.12345" :=
  ⟨(C10_external_id_sources.1 cexJobD "r" "s" "a00000001" rfl (by decide)).1,
   (C10_external_id_sources.2.1 noIdJob "abcdefgh" "0.12345" rfl).1⟩

theorem jsChain_cons_ne (v : JSValue) (t : List JSValue) (h : v ≠ .jsNull) :
    jsChain (v :: t) = v := by
  cases v with
  | jsNull => exact absurd rfl h
  | num q => rfl
  | str s => rfl
  | boolVal b => rfl
  | obj c f => rfl
  | arr xs => rfl

theorem jsChain_singleton (v : JSValue) : jsChain [v] = v := by
  cases v <;> rfl

/-- C5 (confirmed).  Each salary component resolves its first non-null
candidate in the source's fixed priority chain: a non-null flat field
(`salary_min`, `salary_max`, `salary_currency`, `salary_period`) always
wins outright; with the flat minimum candidates and the nested
`value.minValue` all null, the AI-derived minimum is used.  Concretely: a
flat `salary_min` of 10 beats a nested `value.minValue` of 20; AI-only
bounds serialize to canonical JSON; and with no salary signal at all a
raw string "Competitive" is returned truncated, not as JSON. -/
theorem C5_salary_priority_chain :
    (∀ j : Job, j.salary_min ≠ .jsNull → resolvedMin j = j.salary_min) ∧
    (∀ j : Job, j.salary_max ≠ .jsNull → resolvedMax j = j.salary_max) ∧
    (∀ j : Job, j.salary_currency ≠ .jsNull → resolvedCurrency j = j.salary_currency) ∧
    (∀ j : Job, j.salary_period ≠ .jsNull → resolvedPeriod j = j.salary_period) ∧
    (∀ j : Job, j.salary_min = .jsNull → j.salary_min_derived = .jsNull →
      j.salary_range_min = .jsNull → j.salary_from = .jsNull →
      lookupJS (monetaryValueOf j) "minValue" = .jsNull →
      resolvedMin j = j.ai_salary_minvalue) ∧
    resolvedMin flatVsNestedJob = .num 10 ∧
    minNumOf flatVsNestedJob = some 10 ∧
    normalizeSalary aiOnlyJob = .ok (some "\x7b\"min\":50000,\"max\":70000\x7d") ∧
    normalizeSalary competitiveJob = .ok (some "Competitive") := by
  refine ⟨fun j h => jsChain_cons_ne _ _ h, fun j h => jsChain_cons_ne _ _ h,
    fun j h => jsChain_cons_ne _ _ h, fun j h => jsChain_cons_ne _ _ h,
    fun j h1 h2 h3 h4 h5 => ?_, rfl, rfl, rfl, rfl⟩
  unfold resolvedMin
  rw [h1, h2, h3, h4]
  show jsChain [(if valueIsObjectOf j then lookupJS (monetaryValueOf j) "minValue"
    else .jsNull), j.ai_salary_minvalue] = _
  by_cases hv : valueIsObjectOf j = true
  · rw [if_pos hv, h5]
    exact jsChain_singleton _
  · rw [if_neg hv]
    exact jsChain_singleton _

/-- C5 (witness): the flat-beats-nested clause applied at the concrete
listing holding both candidates. -/
theorem C5_salary_priority_chain_witness :
    resolvedMin flatVsNestedJob = flatVsNestedJob.salary_min :=
  C5_salary_priority_chain.1 flatVsNestedJob (by simp [flatVsNestedJob])

/-- C3 (counterexample).  With the enrichment credential unavailable but a
resolved organization URL and domain present, the company-data API call
is skipped yet the company upsert is still performed — enrichment is not
"skipped entirely". -/
theorem C3_upsert_without_credential_counterexample :
    (upsertCompanyByOrganizationUrl "" (some "https://acme.example") (some "Acme")
      (some "acme.example") (some "acme") (.ok .jsNull)).apiCalled = false ∧
    (upsertCompanyByOrganizationUrl "" (some "https://acme.example") (some "Acme")
      (some "acme.example") (some "acme") (.ok .jsNull)).upserted = true :=
  ⟨rfl, rfl⟩

/-- C3 (amended).  Company enrichment is skipped entirely — no API call,
no upsert — when the resolved organization URL is absent (the `syncJobs`
guard also skips the whole step then); when the enrichment credential is
unavailable the company-data API call is skipped, but for a truthy
organization URL the company upsert still proceeds with the locally-known
fields. -/
theorem C3_company_enrichment_amended :
    (∀ key name domain slug api,
      upsertCompanyByOrganizationUrl key none name domain slug api =
        ⟨false, false, none⟩) ∧
    (∀ key url name domain slug api, strTruthy url = false →
      upsertCompanyByOrganizationUrl key url name domain slug api =
        ⟨false, false, none⟩) ∧
    (∀ url name domain slug api,
      (upsertCompanyByOrganizationUrl "" url name domain slug api).apiCalled = false) ∧
    (∀ key url name domain slug api, strTruthy url = true →
      (upsertCompanyByOrganizationUrl key url name domain slug api).upserted = true) ∧
    (∀ processed domain, companyStepRuns none processed domain = false) := by
  refine ⟨fun key name domain slug api => rfl, fun key url name domain slug api h => ?_,
    fun url name domain slug api => ?_, fun key url name domain slug api h => ?_,
    fun processed domain => rfl⟩
  · simp [upsertCompanyByOrganizationUrl, h]
  · by_cases ht : strTruthy url = true
    · simp [upsertCompanyByOrganizationUrl, ht, fetchCompanyDetails]
    · simp [upsertCompanyByOrganizationUrl, ht]
  · simp [upsertCompanyByOrganizationUrl, h]

/-- C3 (witness): the amended clauses applied at concrete inputs. -/
theorem C3_company_enrichment_amended_witness :
    upsertCompanyByOrganizationUrl "key" none (some "Acme") (some "acme.example")
      (some "acme") (.ok .jsNull) = ⟨false, false, none⟩ ∧
    (upsertCompanyByOrganizationUrl "" (some "https://acme.example") (some "Acme")
      (some "acme.example") (some "acme") (.ok .jsNull)).upserted = true :=
  ⟨C3_company_enrichment_amended.1 "key" (some "Acme") (some "acme.example")
      (some "acme") (.ok .jsNull),
   C3_company_enrichment_amended.2.2.2.1 "" (some "https://acme.example") (some "Acme")
      (some "acme.example") (some "acme") (.ok .jsNull) (by decide)⟩

/-- C6 (confirmed).  `classifyJobCategory` always yields null or a member
of the fixed category set; with no credential it makes no network call
and yields null; any call failure yields null; and a completion whose
normalized text neither equals nor contains a known category yields null.
Concretely, a completion containing "analyst" classifies as "ANALYST"
(a set member) and gibberish classifies as null. -/
theorem C6_classifier_closed_set :
    (∀ (key : String) (api : Except Unit JSValue),
      (classifyJobCategory key api).category = none ∨
      ∃ c ∈ JOB_CATEGORIES, (classifyJobCategory key api).category = some c) ∧
    (∀ api, classifyJobCategory "" api = ⟨false, none⟩) ∧
    (∀ key, key ≠ "" → classifyJobCategory key (.error ()) = ⟨true, none⟩) ∧
    (∀ (key : String) (data : JSValue) (s : String), key ≠ "" →
      groqContent data = .str s →
      (∀ c ∈ JOB_CATEGORIES, ¬(normalizedCompletion s = c ∨
        strIncludes (normalizedCompletion s) c = true)) →
      (classifyJobCategory key (.ok data)).category = none) ∧
    classifyJobCategory "k" (.ok analystCompletion) = ⟨true, some "ANALYST"⟩ ∧
    "ANALYST" ∈ JOB_CATEGORIES ∧
    classifyJobCategory "k" (.ok gibberishCompletion) = ⟨true, none⟩ := by
  refine ⟨fun key api => ?_, fun api => ?_, fun key hk => ?_,
    fun key data s hk hc hnone => ?_, rfl, by decide, rfl⟩
  · by_cases hk : key = ""
    · left; simp [classifyJobCategory, hk]
    · unfold classifyJobCategory
      rw [if_neg hk]
      cases api with
      | error e => left; rfl
      | ok data =>
        show classifyFromBody data = none ∨
          ∃ c ∈ JOB_CATEGORIES, classifyFromBody data = some c
        unfold classifyFromBody
        cases hc : groqContent data with
        | str s =>
          cases hf : JOB_CATEGORIES.find? (fun cat =>
              normalizedCompletion s = cat ||
              strIncludes (normalizedCompletion s) cat) with
          | none => left; exact hf
          | some c => right; exact ⟨c, List.mem_of_find?_eq_some hf, hf⟩
        | jsNull => left; rfl
        | num q => left; rfl
        | boolVal b => left; rfl
        | obj cy f => left; rfl
        | arr xs => left; rfl
  · simp [classifyJobCategory]
  · simp [classifyJobCategory, hk]
  · unfold classifyJobCategory
    rw [if_neg hk]
    show classifyFromBody data = none
    unfold classifyFromBody
    rw [hc]
    exact List.find?_eq_none.mpr (fun x hx hb =>
      hnone x hx (by simpa [Bool.or_eq_true, decide_eq_true_eq] using hb))

/-- C6 (witness): the degradation clauses applied at concrete inputs. -/
theorem C6_classifier_closed_set_witness :
    classifyJobCategory "" (.ok analystCompletion) = ⟨false, none⟩ ∧
    classifyJobCategory "k" (.error ()) = ⟨true, none⟩ :=
  ⟨C6_classifier_closed_set.2.1 (.ok analystCompletion),
   C6_classifier_closed_set.2.2.1 "k" (by decide)⟩

theorem strTruthy_none : strTruthy none = false := rfl

theorem orElseJS_none (a : Option String) : orElseJS a none = truthyOrNone a := rfl

theorem fetchSerp_error_snd (key : String) (org : Option String) :
    (fetchOrganizationUrlFromSerpApi key org (.error ())).2 = none := by
  unfold fetchOrganizationUrlFromSerpApi
  by_cases hb : (key = "" || !(strTruthy org)) = true
  · rw [if_pos hb]
  · rw [if_neg hb]

/-- C7 (confirmed).  A listing already carrying an organization URL makes
no search call and returns that URL with the listing logo or the
URL-domain favicon; without an organization URL and without the search
credential the result is a null URL and the listing logo or null, with no
network access; and a search-API failure degrades to the same null URL
and listing-logo-or-null (the resolver is a total function — a search
failure never escapes it). -/
theorem C7_org_resolution_fallback :
    (∀ (key : String) (j : Job) (api : Except Unit JSValue),
      strTruthy j.organization_url = true →
      resolveOrganizationUrls key j api =
        ⟨false, j.organization_url,
         orElseJS j.organization_logo (buildFaviconUrl (extractDomain j.organization_url))⟩) ∧
    (∀ (j : Job) (api : Except Unit JSValue), strTruthy j.organization_url = false →
      resolveOrganizationUrls "" j api =
        ⟨false, none, truthyOrNone j.organization_logo⟩) ∧
    (∀ (key : String) (j : Job), strTruthy j.organization_url = false → key ≠ "" →
      (resolveOrganizationUrls key j (.error ())).organizationUrl = none ∧
      (resolveOrganizationUrls key j (.error ())).organizationLogoUrl =
        truthyOrNone j.organization_logo) ∧
    resolveOrganizationUrls "serp-key" orgUrlJob (.error ()) =
      ⟨false, some "https://www.beta.example/about",
       some "https://www.google.com/s2/favicons?domain=beta.example&sz=256"⟩ ∧
    resolveOrganizationUrls "" bareOrgJob (.ok .jsNull) = ⟨false, none, none⟩ ∧
    resolveOrganizationUrls "serp-key" bareOrgJob (.error ()) = ⟨true, none, none⟩ := by
  refine ⟨fun key j api h => ?_, fun j api h => ?_, fun key j h hk => ?_, rfl, rfl, rfl⟩
  · simp [resolveOrganizationUrls, truthyOrNone, h]
  · simp [resolveOrganizationUrls, truthyOrNone, h, extractDomain, buildFaviconUrl, orElseJS]
  · constructor
    · simp [resolveOrganizationUrls, truthyOrNone, h, hk, fetchSerp_error_snd,
        strTruthy_none, extractDomain, buildFaviconUrl, orElseJS]
    · simp [resolveOrganizationUrls, truthyOrNone, h, hk, fetchSerp_error_snd,
        strTruthy_none, extractDomain, buildFaviconUrl, orElseJS]

/-- C7 (witness): the general clauses applied at concrete listings. -/
theorem C7_org_resolution_fallback_witness :
    resolveOrganizationUrls "serp-key" orgUrlJob (.ok .jsNull) =
      ⟨false, some "https://www.beta.example/about",
       some "https://www.google.com/s2/favicons?domain=beta.example&sz=256"⟩ ∧
    resolveOrganizationUrls "" bareOrgJob (.error ()) = ⟨false, none, none⟩ :=
  ⟨C7_org_resolution_fallback.1 "serp-key" orgUrlJob (.ok .jsNull) (by decide),
   C7_org_resolution_fallback.2.1 bareOrgJob (.error ()) (by decide)⟩

/-- C8 (confirmed).  The keyword filter rejects any listing whose
lowercased title-and-description text holds an exclude-keyword substring,
regardless of include matches; with no exclude keyword present it accepts
exactly when an include keyword is present.  Concretely, a listing with
both "physical security" and "infosec" in its text is rejected, and "SOC
Analyst" is accepted.  -/
theorem C8_keyword_exclusion_precedence :
    (∀ j : Job, (∃ k ∈ EXCLUDE_KEYWORDS, strIncludes (jobText j) k = true) →
      isCybersecurityJob j = false) ∧
    (∀ j : Job, (∀ k ∈ EXCLUDE_KEYWORDS, strIncludes (jobText j) k = false) →
      (isCybersecurityJob j = true ↔
        ∃ k ∈ CYBER_KEYWORDS, strIncludes (jobText j) k = true)) ∧
    (∃ k ∈ EXCLUDE_KEYWORDS, strIncludes (jobText exclJob) k = true) ∧
    (∃ k ∈ CYBER_KEYWORDS, strIncludes (jobText exclJob) k = true) ∧
    isCybersecurityJob exclJob = false ∧
    isCybersecurityJob inclJob = true := by
  refine ⟨fun j h => ?_, fun j h => ?_, by decide, by decide, by decide, by decide⟩
  · unfold isCybersecurityJob
    rw [if_pos (List.any_eq_true.mpr h)]
  · unfold isCybersecurityJob
    have hno : EXCLUDE_KEYWORDS.any (fun keyword => strIncludes (jobText j) keyword)
        = false := by
      rw [List.any_eq_false]
      intro x hx
      simp [h x hx]
    rw [hno]
    simp

/-- C8 (witness): exclusion precedence applied at the concrete listing
holding both keyword kinds. -/
theorem C8_keyword_exclusion_precedence_witness :
    isCybersecurityJob exclJob = false :=
  C8_keyword_exclusion_precedence.1 exclJob (by decide)
